import Mathlib

/-!
Shallow embedding of the sales-dashboard pipeline in `project.py`.

The pipeline (lines 56-176 of `project.py`) renames user-mapped columns to
canonical roles, coerces Price/Quantity to numbers (`pd.to_numeric` with
`errors="coerce"`), derives `Revenue = Price * Quantity`, filters rows by
Region/Product membership and Price/Quantity ranges, optionally filters by a
date range, computes KPIs, grouped aggregates, a missing-value report, a
monthly trend, and a CSV export of the filtered table.

Missing values (pandas `NaN`/`NaT`) are modelled as `Option.none`; floats as
`ℚ`; pandas timestamps as a year/month/day/seconds-of-day record ordered
lexicographically.
-/

namespace Sales

/-- A raw cell of the Price/Quantity column before numeric coercion: a numeric
value, a non-numeric text (one `pd.to_numeric` cannot parse), or missing. -/
inductive Cell where
  | num (q : ℚ)
  | text (s : String)
  | empty
deriving DecidableEq

/-- A pandas timestamp: calendar year, month, day and seconds within the day.
`pd.to_datetime` produces full timestamps, so the time-of-day component is
part of the model. Ordered lexicographically by `tsLe`. -/
structure Ts where
  y : Int
  mo : Int
  d : Int
  sec : Int
deriving DecidableEq

/-- Lexicographic order on timestamps (year, month, day, time-of-day). -/
def tsLe (a b : Ts) : Bool :=
  if a.y < b.y then true else if b.y < a.y then false
  else if a.mo < b.mo then true else if b.mo < a.mo then false
  else if a.d < b.d then true else if b.d < a.d then false
  else a.sec ≤ b.sec

/-- Strict version of `tsLe`. -/
def tsLt (a b : Ts) : Bool :=
  tsLe a b && !(a == b)

/-- `Date.dt.to_period("M").dt.to_timestamp()` (line 155): truncate a
timestamp to the first day of its calendar month, at midnight. -/
def monthStart (t : Ts) : Ts :=
  ⟨t.y, t.mo, 1, 0⟩

/-- A raw cell of the mapped Date column: a parseable timestamp, a text that
`pd.to_datetime` cannot parse, or missing. -/
inductive DateCell where
  | stamp (t : Ts)
  | bad (s : String)
  | empty
deriving DecidableEq

/-- `safe_numeric` (lines 18-19): `pd.to_numeric(series, errors="coerce")`.
Numeric values pass through, anything unparsable becomes missing. -/
def safe_numeric : Cell → Option ℚ
  | Cell.num q => some q
  | Cell.text _ => none
  | Cell.empty => none

/-- `pd.to_datetime(..., errors="coerce")` (line 71): parseable values become
timestamps, anything else becomes missing (`NaT`). -/
def to_datetime : DateCell → Option Ts
  | DateCell.stamp t => some t
  | DateCell.bad _ => none
  | DateCell.empty => none

/-- A raw record restricted to the mapped role columns, before coercion. -/
structure RawRow where
  region : Option String
  product : Option String
  price : Cell
  quantity : Cell
  date : DateCell
deriving DecidableEq

/-- A canonical record after coercion and Revenue derivation (lines 65-71). -/
structure Row where
  region : Option String
  product : Option String
  price : Option ℚ
  quantity : Option ℚ
  revenue : Option ℚ
  date : Option Ts
deriving DecidableEq

/-- Element-wise product with NaN propagation: `df["Price"] * df["Quantity"]`
is missing as soon as either operand is missing. -/
def optMul : Option ℚ → Option ℚ → Option ℚ
  | some a, some b => some (a * b)
  | some _, none => none
  | none, _ => none

/-- Lines 65-71: coerce Price and Quantity, derive Revenue, coerce Date when
a Date column is mapped (`has_date`), else no Date field. -/
def canonicalRow (hasDate : Bool) (r : RawRow) : Row :=
  { region := r.region
    product := r.product
    price := safe_numeric r.price
    quantity := safe_numeric r.quantity
    revenue := optMul (safe_numeric r.price) (safe_numeric r.quantity)
    date := if hasDate then to_datetime r.date else none }

/-- The canonicalized table: `canonicalRow` applied to every raw record. -/
def canonicalTable (hasDate : Bool) (rows : List RawRow) : List Row :=
  rows.map (canonicalRow hasDate)

/-- The filter state: selected Region values, selected Product values, and the
Price and Quantity slider ranges (lines 77-88). -/
structure FilterSpec where
  regions : List String
  products : List String
  priceLo : ℚ
  priceHi : ℚ
  qtyLo : ℚ
  qtyHi : ℚ
deriving DecidableEq

/-- `series.isin(values)`: a missing value is never a member of the selected
value list (the lists come from `dropna().unique()`, so they hold no NaN). -/
def optIsin (v : Option String) (l : List String) : Bool :=
  match v with
  | some s => decide (s ∈ l)
  | none => false

/-- `series.between(lo, hi, inclusive="both")`: missing never satisfies the
range comparison. -/
def optBetween (v : Option ℚ) (lo hi : ℚ) : Bool :=
  match v with
  | some x => decide (lo ≤ x) && decide (x ≤ hi)
  | none => false

/-- The boolean mask of lines 90-95, one row at a time. -/
def keepRow (s : FilterSpec) (r : Row) : Bool :=
  optIsin r.region s.regions && optIsin r.product s.products &&
    optBetween r.price s.priceLo s.priceHi &&
    optBetween r.quantity s.qtyLo s.qtyHi

/-- `filtered_df` (lines 90-95): the rows of `df` satisfying the mask. -/
def filtered_df (s : FilterSpec) (rows : List Row) : List Row :=
  rows.filter (keepRow s)

/-- A calendar day, as returned by the `st.date_input` date-range picker. -/
structure Day where
  y : Int
  mo : Int
  d : Int
deriving DecidableEq

/-- `pd.to_datetime(date)` on a calendar day: midnight of that day. -/
def Day.toTs (v : Day) : Ts :=
  ⟨v.y, v.mo, v.d, 0⟩

/-- The calendar day a timestamp falls on. -/
def Ts.day (t : Ts) : Day :=
  ⟨t.y, t.mo, t.d⟩

/-- The date-range filter (lines 105-107):
`(Date >= to_datetime(start)) & (Date <= to_datetime(end))`; comparisons
against `NaT` are false. -/
def dateFiltered (startD endD : Day) (rows : List Row) : List Row :=
  rows.filter fun r =>
    match r.date with
    | some t => tsLe (Day.toTs startD) t && tsLe t (Day.toTs endD)
    | none => false

/-- Code-point lexicographic comparison of character lists: the order Python
`sorted` uses on strings. -/
def strListLe : List Char → List Char → Bool
  | [], _ => true
  | _ :: _, [] => false
  | a :: as, b :: bs =>
    if a.toNat < b.toNat then true
    else if b.toNat < a.toNat then false
    else strListLe as bs

/-- Code-point lexicographic comparison of strings. -/
def strLeB (a b : String) : Bool :=
  strListLe a.data b.data

/-- `strLeB` as a relation, for sorting. -/
def strLeP (a b : String) : Prop :=
  strLeB a b = true

instance : DecidableRel strLeP :=
  fun a b => inferInstanceAs (Decidable (strLeB a b = true))

/-- `sorted(series.dropna().unique())` (lines 74-75): the distinct non-missing
values, in ascending order. -/
def uniqueSorted (l : List String) : List String :=
  List.insertionSort strLeP l.dedup

/-- Column minimum with NaN skipped (`series.min()`), `none` on all-missing. -/
def colMin (l : List ℚ) : Option ℚ :=
  l.min?

/-- Column maximum with NaN skipped (`series.max()`), `none` on all-missing. -/
def colMax (l : List ℚ) : Option ℚ :=
  l.max?

/-- The default FilterSpec (lines 74-88): all distinct Region/Product values
selected, sliders at the observed min/max of Price and Quantity (0.0 when a
column is all-missing, per lines 82-85). -/
def default_spec (rows : List Row) : FilterSpec :=
  { regions := uniqueSorted (rows.filterMap Row.region)
    products := uniqueSorted (rows.filterMap Row.product)
    priceLo := (colMin (rows.filterMap Row.price)).getD 0
    priceHi := (colMax (rows.filterMap Row.price)).getD 0
    qtyLo := (colMin (rows.filterMap Row.quantity)).getD 0
    qtyHi := (colMax (rows.filterMap Row.quantity)).getD 0 }

/-- `series.sum()`: sum of the non-missing values (missing skipped, empty
sum is 0). -/
def colSum (l : List (Option ℚ)) : ℚ :=
  (l.filterMap id).sum

/-- `series.mean()`: mean of the non-missing values; `none` (NaN) when there
is no non-missing value — never a division error. -/
def colMean (l : List (Option ℚ)) : Option ℚ :=
  let v := l.filterMap id
  if v.length = 0 then none else some (v.sum / (v.length : ℚ))

/-- `total_revenue` (line 110). -/
def total_revenue (rows : List Row) : ℚ :=
  colSum (rows.map Row.revenue)

/-- `total_units` (line 111). -/
def total_units (rows : List Row) : ℚ :=
  colSum (rows.map Row.quantity)

/-- `avg_price` (line 112). -/
def avg_price (rows : List Row) : Option ℚ :=
  colMean (rows.map Row.price)

/-- `avg_units` (line 113). -/
def avg_units (rows : List Row) : Option ℚ :=
  colMean (rows.map Row.quantity)

/-- One entry of `filtered_df.isna().sum()` (line 123): how many values of a
column are missing. -/
def missingCount {α : Type} (l : List (Option α)) : Nat :=
  (l.filter Option.isNone).length

/-- `groupby(key, as_index=False)["Revenue"].sum()`: the distinct non-missing
keys in ascending order (pandas sorts group keys), each with the sum of
Revenue over its rows (missing Revenue skipped; missing keys dropped). -/
def groupbySum (key : Row → Option String) (rows : List Row) : List (String × ℚ) :=
  (uniqueSorted (rows.filterMap key)).map fun k =>
    (k, colSum ((rows.filter fun r => key r == some k).map Row.revenue))

/-- `sort_values("Revenue", ascending=False)`: descending summed Revenue. -/
def revDesc (a b : String × ℚ) : Prop :=
  b.2 ≤ a.2

instance : DecidableRel revDesc :=
  fun a b => inferInstanceAs (Decidable (b.2 ≤ a.2))

instance : IsTotal (String × ℚ) revDesc :=
  ⟨fun a b => le_total b.2 a.2⟩

instance : IsTrans (String × ℚ) revDesc :=
  ⟨fun _ _ _ h1 h2 => le_trans h2 h1⟩

/-- `prod_rev` (lines 133-138): group by Product, sum Revenue, sort
descending by Revenue, keep the first `topN` groups. -/
def prod_rev (topN : Nat) (rows : List Row) : List (String × ℚ) :=
  (List.insertionSort revDesc (groupbySum Row.product rows)).take topN

/-- `region_rev` (lines 143-147): group by Region, sum Revenue, sort
descending by Revenue. -/
def region_rev (rows : List Row) : List (String × ℚ) :=
  List.insertionSort revDesc (groupbySum Row.region rows)

/-- `tsLe` as a relation, for sorting month keys. -/
def tsLeP (a b : Ts) : Prop :=
  tsLe a b = true

instance : DecidableRel tsLeP :=
  fun a b => inferInstanceAs (Decidable (tsLe a b = true))

theorem tsLe_iff (a b : Ts) :
    tsLe a b = true ↔
      a.y < b.y ∨ (a.y = b.y ∧ (a.mo < b.mo ∨ (a.mo = b.mo ∧
        (a.d < b.d ∨ (a.d = b.d ∧ a.sec ≤ b.sec))))) := by
  unfold tsLe
  split_ifs <;> simp <;> omega

theorem tsLe_total (a b : Ts) : tsLe a b = true ∨ tsLe b a = true := by
  rw [tsLe_iff, tsLe_iff]
  omega

theorem tsLe_trans (a b c : Ts) (h1 : tsLe a b = true) (h2 : tsLe b c = true) :
    tsLe a c = true := by
  rw [tsLe_iff] at h1 h2 ⊢
  omega

instance : IsTotal Ts tsLeP :=
  ⟨tsLe_total⟩

instance : IsTrans Ts tsLeP :=
  ⟨tsLe_trans⟩

/-- The distinct month keys of the date-bearing rows, ascending (pandas
`groupby` sorts its keys). -/
def month_keys (rows : List Row) : List Ts :=
  List.insertionSort tsLeP ((rows.filterMap Row.date).map monthStart).dedup

/-- `trend_df` (lines 153-158): drop rows with missing Date, truncate each
Date to its month start, group by month, sum Revenue per month. -/
def trend_df (rows : List Row) : List (Ts × ℚ) :=
  (month_keys rows).map fun m =>
    (m, colSum ((rows.filter fun r => r.date.map monthStart == some m).map Row.revenue))

/-- The rename applied to one column name by
`raw_df.rename(columns={region_col: "Region", product_col: "Product",
price_col: "Price", quantity_col: "Quantity"})` (lines 56-63). When role
source names collide, the later entry of the Python dict literal wins, so the
lookup checks the later bindings first. -/
def renameRole (rc pc prc qc : String) (c : String) : String :=
  if c = qc then "Quantity"
  else if c = prc then "Price"
  else if c = pc then "Product"
  else if c = rc then "Region"
  else c

/-- The columns of `df` after the rename: every raw column renamed in place,
order preserved. -/
def df_columns (raw : List String) (rc pc prc qc : String) : List String :=
  raw.map (renameRole rc pc prc qc)

/-- `df[c] = ...` at header level: assigns in place when the column exists,
appends it at the end otherwise. -/
def setCol (hs : List String) (c : String) : List String :=
  if c ∈ hs then hs else hs ++ [c]

/-- The columns of `filtered_df`, hence the header of the exported CSV:
the renamed raw columns, then the `Revenue` assignment (line 67), then the
`Date` assignment (line 71) when a Date column is mapped. -/
def export_columns (raw : List String) (rc pc prc qc : String) (hasDate : Bool) : List String :=
  let base := setCol (df_columns raw rc pc prc qc) "Revenue"
  if hasDate then setCol base "Date" else base

/-- `df[c]` at header level: `some` when the column exists, `none` models the
`KeyError` raised on a missing column. -/
def col_access (hs : List String) (c : String) : Option String :=
  if c ∈ hs then some c else none

/-- One CSV field of `to_csv` output, structurally: the text of a string cell,
the decimal text of a number, the text of a timestamp, or the empty field a
missing value is written as. (CSV quoting/escaping is the opaque CSV
library's concern.) -/
inductive CsvField where
  | text (s : String)
  | num (q : ℚ)
  | stamp (t : Ts)
  | empty
deriving DecidableEq

/-- Serialize a text cell. -/
def csvOfOptStr : Option String → CsvField
  | some s => CsvField.text s
  | none => CsvField.empty

/-- Serialize a numeric cell: NaN is written as the empty field. -/
def csvOfOptQ : Option ℚ → CsvField
  | some q => CsvField.num q
  | none => CsvField.empty

/-- Serialize a date cell: NaT is written as the empty field. -/
def csvOfOptTs : Option Ts → CsvField
  | some t => CsvField.stamp t
  | none => CsvField.empty

/-- One data row of `filtered_df.to_csv(index=False)` for a table whose
columns are the canonical ones: fields in canonical column order. -/
def exportRow (hasDate : Bool) (r : Row) : List CsvField :=
  [csvOfOptStr r.region, csvOfOptStr r.product, csvOfOptQ r.price,
      csvOfOptQ r.quantity, csvOfOptQ r.revenue] ++
    (if hasDate then [csvOfOptTs r.date] else [])

/-- The canonical column names, with Revenue, and Date when mapped. -/
def canonical_header (hasDate : Bool) : List String :=
  ["Region", "Product", "Price", "Quantity", "Revenue"] ++
    (if hasDate then ["Date"] else [])

/-- `filtered_df.to_csv(index=False)` (line 173), structurally, for a table
whose columns are the canonical ones: the header row and one data row per
record, no index column. -/
def to_csv (hasDate : Bool) (rows : List Row) : List String × List (List CsvField) :=
  (canonical_header hasDate, rows.map (exportRow hasDate))

/-- Re-parsing an exported field and reapplying `safe_numeric`: a numeric
field parses back to its number, the empty field to NaN, text to NaN. -/
def safe_numeric_field : CsvField → Option ℚ
  | CsvField.num q => some q
  | _ => none

/-! ### Theorems -/

theorem optIsin_eq_true_iff (v : Option String) (l : List String) :
    optIsin v l = true ↔ ∃ s, v = some s ∧ s ∈ l := by
  cases v <;> simp [optIsin]

theorem optBetween_eq_true_iff (v : Option ℚ) (lo hi : ℚ) :
    optBetween v lo hi = true ↔ ∃ x, v = some x ∧ lo ≤ x ∧ x ≤ hi := by
  cases v <;> simp [optBetween]

/-- C1: the categorical + numeric-range filter returns a subsequence of its
input (order preserved), and a row is kept iff its Region is in the selected
set, its Product is in the selected set, its Price is within the inclusive
price bounds and its Quantity within the inclusive quantity bounds; a row
whose Price or Quantity is missing is always excluded (for any bounds, so in
particular at the default full observed min/max). -/
theorem filter_engine_spec (s : FilterSpec) (rows : List Row) :
    (filtered_df s rows).Sublist rows ∧
    (∀ r : Row, r ∈ filtered_df s rows ↔ r ∈ rows ∧
      (∃ re, r.region = some re ∧ re ∈ s.regions) ∧
      (∃ pr, r.product = some pr ∧ pr ∈ s.products) ∧
      (∃ p, r.price = some p ∧ s.priceLo ≤ p ∧ p ≤ s.priceHi) ∧
      (∃ q, r.quantity = some q ∧ s.qtyLo ≤ q ∧ q ≤ s.qtyHi)) ∧
    (∀ r : Row, r.price = none ∨ r.quantity = none → r ∉ filtered_df s rows) := by
  have hmem : ∀ r : Row, r ∈ filtered_df s rows ↔ r ∈ rows ∧
      (∃ re, r.region = some re ∧ re ∈ s.regions) ∧
      (∃ pr, r.product = some pr ∧ pr ∈ s.products) ∧
      (∃ p, r.price = some p ∧ s.priceLo ≤ p ∧ p ≤ s.priceHi) ∧
      (∃ q, r.quantity = some q ∧ s.qtyLo ≤ q ∧ q ≤ s.qtyHi) := by
    intro r
    simp only [filtered_df, List.mem_filter, keepRow, Bool.and_eq_true,
      optIsin_eq_true_iff, optBetween_eq_true_iff]
    tauto
  refine ⟨List.filter_sublist _, hmem, ?_⟩
  intro r hopt hr
  rcases (hmem r).mp hr with ⟨-, -, -, ⟨p, hp, -⟩, ⟨q, hq, -⟩⟩
  rcases hopt with h | h
  · rw [h] at hp; exact Option.noConfusion hp
  · rw [h] at hq; exact Option.noConfusion hq

/-- Witness for C1: a concrete row passing a concrete filter is kept. -/
theorem filter_engine_spec_witness :
    (⟨some "East", some "Pen", some 2, some 10, some 20, none⟩ : Row) ∈
      filtered_df ⟨["East"], ["Pen"], 1, 3, 5, 10⟩
        [⟨some "East", some "Pen", some 2, some 10, some 20, none⟩] :=
  ((filter_engine_spec ⟨["East"], ["Pen"], 1, 3, 5, 10⟩
      [⟨some "East", some "Pen", some 2, some 10, some 20, none⟩]).2.1 _).mpr
    ⟨List.mem_singleton.mpr rfl, ⟨"East", rfl, by decide⟩, ⟨"Pen", rfl, by decide⟩,
      ⟨2, rfl, by norm_num⟩, ⟨10, rfl, by norm_num⟩⟩

/-- C2: in every row of the canonicalized table, Revenue is the product of
Price and Quantity when both are non-missing, and missing when either
operand is missing. -/
theorem revenue_spec (hasDate : Bool) (rws : List RawRow) :
    ∀ c ∈ canonicalTable hasDate rws,
      (∀ p q : ℚ, c.price = some p → c.quantity = some q →
        c.revenue = some (p * q)) ∧
      (c.price = none ∨ c.quantity = none → c.revenue = none) := by
  intro c hc
  simp only [canonicalTable, List.mem_map] at hc
  obtain ⟨r, -, rfl⟩ := hc
  cases hp : safe_numeric r.price <;> cases hq : safe_numeric r.quantity <;>
    simp [canonicalRow, optMul, hp, hq]

/-- Witness for C2: on a row with Price 3 and Quantity 4, Revenue is 12. -/
theorem revenue_spec_witness :
    (canonicalRow true ⟨some "E", some "P", Cell.num 3, Cell.num 4, DateCell.empty⟩).revenue
      = some (3 * 4 : ℚ) :=
  (revenue_spec true [⟨some "E", some "P", Cell.num 3, Cell.num 4, DateCell.empty⟩]
      _ (List.mem_singleton.mpr rfl)).1 3 4 rfl rfl

/-- C4: when the filters exclude every row, the KPI reductions still succeed:
total Revenue and total Quantity are 0 and the mean Price and mean Quantity
are the missing marker `none`, which differs from every actual number, in
particular from 0. -/
theorem empty_result_kpis (s : FilterSpec) (rows : List Row)
    (h : filtered_df s rows = []) :
    total_revenue (filtered_df s rows) = 0 ∧
    total_units (filtered_df s rows) = 0 ∧
    avg_price (filtered_df s rows) = none ∧
    avg_units (filtered_df s rows) = none ∧
    (∀ q : ℚ, avg_price (filtered_df s rows) ≠ some q) ∧
    avg_price (filtered_df s rows) ≠ some 0 := by
  rw [h]
  refine ⟨rfl, rfl, rfl, rfl, fun q => ?_, ?_⟩ <;> simp [avg_price, colMean]

/-- Witness for C4: a filter with an empty Region selection empties a
one-row table, and the KPIs degrade as stated. -/
theorem empty_result_kpis_witness :
    total_revenue (filtered_df ⟨[], [], 0, 0, 0, 0⟩
        [⟨some "East", some "Pen", some 2, some 10, some 20, none⟩]) = 0 ∧
    avg_price (filtered_df ⟨[], [], 0, 0, 0, 0⟩
        [⟨some "East", some "Pen", some 2, some 10, some 20, none⟩]) = none :=
  ⟨(empty_result_kpis ⟨[], [], 0, 0, 0, 0⟩
      [⟨some "East", some "Pen", some 2, some 10, some 20, none⟩] (by decide)).1,
   (empty_result_kpis ⟨[], [], 0, 0, 0, 0⟩
      [⟨some "East", some "Pen", some 2, some 10, some 20, none⟩] (by decide)).2.2.1⟩

/-- C5: for any Top-N in the slider bounds, the per-Product aggregate is
sorted descending by summed Revenue and has at most N entries, and the
per-Region aggregate is sorted descending by summed Revenue. -/
theorem group_agg_spec (topN : Nat) (rows : List Row)
    (_h5 : 5 ≤ topN) (_h30 : topN ≤ 30) :
    (prod_rev topN rows).length ≤ topN ∧
    List.Pairwise (fun a b : String × ℚ => b.2 ≤ a.2) (prod_rev topN rows) ∧
    List.Pairwise (fun a b : String × ℚ => b.2 ≤ a.2) (region_rev rows) := by
  refine ⟨?_, ?_, ?_⟩
  · simp [prod_rev]
  · exact (List.sorted_insertionSort revDesc
      (groupbySum Row.product rows)).sublist (List.take_sublist _ _)
  · exact List.sorted_insertionSort revDesc (groupbySum Row.region rows)

/-- Witness for C5 at N = 10 on a one-row table. -/
theorem group_agg_spec_witness :
    (prod_rev 10 [⟨some "East", some "Pen", some 2, some 10, some 20, none⟩]).length ≤ 10 :=
  (group_agg_spec 10 [⟨some "East", some "Pen", some 2, some 10, some 20, none⟩]
    (by decide) (by decide)).1

theorem tsLt_of_le_of_ne {a b : Ts} (h : tsLe a b = true) (hne : a ≠ b) :
    tsLt a b = true := by
  simp [tsLt, h, hne]

/-- C6: the monthly trend (rows with a Date, truncated to month starts,
grouped and summed) is strictly ascending in the month key — so it is sorted
ascending and holds no duplicate month — and is empty when no row has a
usable Date. -/
theorem trend_spec (rows : List Row) :
    List.Pairwise (fun a b : Ts × ℚ => tsLt a.1 b.1 = true) (trend_df rows) ∧
    (rows.filterMap Row.date = [] → trend_df rows = []) := by
  constructor
  · rw [trend_df, List.pairwise_map]
    have hsorted : List.Pairwise tsLeP (month_keys rows) :=
      List.sorted_insertionSort tsLeP _
    have hnodup : (month_keys rows).Nodup :=
      ((List.perm_insertionSort tsLeP _).nodup_iff).mpr (List.nodup_dedup _)
    exact hsorted.imp₂ (fun _ _ h hne => tsLt_of_le_of_ne h hne) hnodup
  · intro h
    simp [trend_df, month_keys, h]

/-- Witness for C6 on a table with one date-bearing row, and the empty trend
of a table whose only row has no Date. -/
theorem trend_spec_witness :
    List.Pairwise (fun a b : Ts × ℚ => tsLt a.1 b.1 = true)
      (trend_df [⟨some "East", some "Pen", some 2, some 10, some 20,
        some ⟨2024, 1, 5, 0⟩⟩]) ∧
    trend_df [⟨some "East", some "Pen", some 2, some 10, some 20, none⟩] = [] :=
  ⟨(trend_spec [⟨some "East", some "Pen", some 2, some 10, some 20,
      some ⟨2024, 1, 5, 0⟩⟩]).1,
   (trend_spec [⟨some "East", some "Pen", some 2, some 10, some 20, none⟩]).2
     (by decide)⟩

/-- C7 counterexample: a row whose Date falls on the end day of the range but
after midnight is dropped by the date filter, although the claim says every
row dated on the end day is kept. The range is Jan 1 - Jan 5, 2024 and the
row is dated Jan 5, 2024 at 01:00. -/
theorem date_filter_end_day_counterexample :
    ((⟨some "East", some "Pen", some 2, some 1, some 2,
        some ⟨2024, 1, 5, 3600⟩⟩ : Row).date.map Ts.day) = some ⟨2024, 1, 5⟩ ∧
    dateFiltered ⟨2024, 1, 1⟩ ⟨2024, 1, 5⟩
      [⟨some "East", some "Pen", some 2, some 1, some 2,
        some ⟨2024, 1, 5, 3600⟩⟩] = [] := by
  decide

/-- C7 (amended): the date filter keeps exactly the rows whose non-missing
Date lies between midnight of the start day and midnight of the end day
inclusive; a row with a missing Date is always excluded; a row whose Date is
exactly midnight of a day within the range — in particular a time-free Date
on the end day — is kept. -/
theorem date_filter_spec (s e : Day) (rows : List Row) :
    (∀ r : Row, r ∈ dateFiltered s e rows ↔ r ∈ rows ∧
      ∃ t, r.date = some t ∧ tsLe (Day.toTs s) t = true ∧
        tsLe t (Day.toTs e) = true) ∧
    (∀ r : Row, r.date = none → r ∉ dateFiltered s e rows) ∧
    (∀ r : Row, ∀ d : Day, r ∈ rows → r.date = some (Day.toTs d) →
      tsLe (Day.toTs s) (Day.toTs d) = true →
      tsLe (Day.toTs d) (Day.toTs e) = true →
      r ∈ dateFiltered s e rows) := by
  have hmem : ∀ r : Row, r ∈ dateFiltered s e rows ↔ r ∈ rows ∧
      ∃ t, r.date = some t ∧ tsLe (Day.toTs s) t = true ∧
        tsLe t (Day.toTs e) = true := by
    intro r
    simp only [dateFiltered, List.mem_filter]
    cases h : r.date <;> simp [h]
  refine ⟨hmem, ?_, ?_⟩
  · intro r h hr
    rcases (hmem r).mp hr with ⟨-, t, ht, -⟩
    rw [h] at ht
    exact Option.noConfusion ht
  · intro r d hr hd hs he
    exact (hmem r).mpr ⟨hr, Day.toTs d, hd, hs, he⟩

/-- Witness for C7: a midnight-dated row inside the range is kept. -/
theorem date_filter_spec_witness :
    (⟨some "East", some "Pen", some 2, some 1, some 2,
        some ⟨2024, 1, 3, 0⟩⟩ : Row) ∈
      dateFiltered ⟨2024, 1, 1⟩ ⟨2024, 1, 5⟩
        [⟨some "East", some "Pen", some 2, some 1, some 2, some ⟨2024, 1, 3, 0⟩⟩] :=
  (date_filter_spec ⟨2024, 1, 1⟩ ⟨2024, 1, 5⟩
      [⟨some "East", some "Pen", some 2, some 1, some 2, some ⟨2024, 1, 3, 0⟩⟩]).2.2
    _ ⟨2024, 1, 3⟩ (List.mem_singleton.mpr rfl) rfl (by decide) (by decide)

/-- C8: exporting the filtered table to CSV, re-parsing it and reapplying
numeric coercion reproduces the row count and the Price, Quantity and Revenue
values exactly (columns 2, 3 and 4 of each data row). -/
theorem export_roundtrip (hasDate : Bool) (rows : List Row) :
    (to_csv hasDate rows).2.length = rows.length ∧
    (to_csv hasDate rows).2.map (fun fs => fs[2]?.bind safe_numeric_field) =
      rows.map Row.price ∧
    (to_csv hasDate rows).2.map (fun fs => fs[3]?.bind safe_numeric_field) =
      rows.map Row.quantity ∧
    (to_csv hasDate rows).2.map (fun fs => fs[4]?.bind safe_numeric_field) =
      rows.map Row.revenue := by
  refine ⟨by simp [to_csv], ?_, ?_, ?_⟩ <;>
    · simp only [to_csv, List.map_map]
      apply List.map_congr_left
      intro r _
      cases hasDate <;> simp [exportRow] <;> cases hv : r.price <;>
        cases hq : r.quantity <;> cases hrev : r.revenue <;>
          simp [csvOfOptQ, safe_numeric_field]

/-- Witness for C8 on a one-row table with a Date column. -/
theorem export_roundtrip_witness :
    (to_csv true [⟨some "East", some "Pen", some 2, some 10, some 20,
        some ⟨2024, 1, 5, 0⟩⟩]).2.map (fun fs => fs[2]?.bind safe_numeric_field) =
      [some 2] :=
  (export_roundtrip true [⟨some "East", some "Pen", some 2, some 10, some 20,
    some ⟨2024, 1, 5, 0⟩⟩]).2.1

/-- C9 counterexample: the export keeps every column of the input, so with an
extra raw column `Notes` (identity role mapping, no Date) the CSV header is
not the canonical column list — it also holds `Notes`. -/
theorem export_header_counterexample :
    export_columns ["Region", "Product", "Price", "Quantity", "Notes"]
      "Region" "Product" "Price" "Quantity" false ≠ canonical_header false := by
  decide

/-- C9 (amended): the CSV header is the input's columns with the role columns
renamed in place plus an appended Revenue (and Date when mapped); when the
input columns are exactly the four role columns in canonical order, the
header is exactly the canonical list, and the CSV body has one data row per
record of the filtered table with one field per canonical column, in
canonical order. -/
theorem export_header_spec (hasDate : Bool) (rows : List Row) :
    export_columns ["Region", "Product", "Price", "Quantity"]
      "Region" "Product" "Price" "Quantity" hasDate = canonical_header hasDate ∧
    (to_csv hasDate rows).1 = canonical_header hasDate ∧
    (to_csv hasDate rows).2.length = rows.length ∧
    (∀ fs ∈ (to_csv hasDate rows).2, fs.length = (canonical_header hasDate).length) ∧
    (to_csv hasDate rows).2 = rows.map (exportRow hasDate) := by
  refine ⟨by cases hasDate <;> decide, rfl, by simp [to_csv], ?_, rfl⟩
  intro fs hfs
  simp only [to_csv, List.mem_map] at hfs
  obtain ⟨r, -, rfl⟩ := hfs
  cases hasDate <;> simp [exportRow, canonical_header]

/-- Witness for C9 with a Date column mapped and one record. -/
theorem export_header_spec_witness :
    (to_csv true [⟨some "East", some "Pen", some 2, some 10, some 20,
        some ⟨2024, 1, 5, 0⟩⟩]).1 = canonical_header true ∧
    (exportRow true ⟨some "East", some "Pen", some 2, some 10, some 20,
        some ⟨2024, 1, 5, 0⟩⟩).length = (canonical_header true).length :=
  ⟨(export_header_spec true [⟨some "East", some "Pen", some 2, some 10, some 20,
      some ⟨2024, 1, 5, 0⟩⟩]).2.1,
   (export_header_spec true [⟨some "East", some "Pen", some 2, some 10, some 20,
      some ⟨2024, 1, 5, 0⟩⟩]).2.2.2.1 _ (by decide)⟩

/-- C10: when two roles are mapped to the same source column (Region and
Product here) and no input column is itself named `Region`, the Python dict
literal collapses the duplicate keys, the rename produces no `Region` column
(the colliding column becomes `Product`), and the first access to `Region`
fails (the `KeyError`); when the four role columns are pairwise distinct and
present, all four canonical columns exist. -/
theorem role_collision_spec (raw : List String) (rc pc prc qc : String) :
    (rc = pc → rc ≠ prc → rc ≠ qc → "Region" ∉ raw →
      ("Region" ∉ df_columns raw rc pc prc qc ∧
        col_access (df_columns raw rc pc prc qc) "Region" = none ∧
        (rc ∈ raw → "Product" ∈ df_columns raw rc pc prc qc))) ∧
    (rc ≠ pc → rc ≠ prc → rc ≠ qc → pc ≠ prc → pc ≠ qc → prc ≠ qc →
      rc ∈ raw → pc ∈ raw → prc ∈ raw → qc ∈ raw →
      ("Region" ∈ df_columns raw rc pc prc qc ∧
        "Product" ∈ df_columns raw rc pc prc qc ∧
        "Price" ∈ df_columns raw rc pc prc qc ∧
        "Quantity" ∈ df_columns raw rc pc prc qc)) := by
  constructor
  · intro hcol hprc hqc hno
    have habs : "Region" ∉ df_columns raw rc pc prc qc := by
      simp only [df_columns, List.mem_map, not_exists, not_and]
      intro c hc
      unfold renameRole
      split_ifs with h1 h2 h3 h4
      · decide
      · decide
      · decide
      · exact absurd (h4.trans hcol) h3
      · exact fun hEq => hno (hEq ▸ hc)
    refine ⟨habs, by simp [col_access, habs], ?_⟩
    intro hrc
    refine List.mem_map.mpr ⟨rc, hrc, ?_⟩
    subst hcol
    simp [renameRole, hprc, hqc]
  · intro h1 h2 h3 h4 h5 h6 hrc hpc hprc hqc
    refine ⟨List.mem_map.mpr ⟨rc, hrc, ?_⟩, List.mem_map.mpr ⟨pc, hpc, ?_⟩,
      List.mem_map.mpr ⟨prc, hprc, ?_⟩, List.mem_map.mpr ⟨qc, hqc, ?_⟩⟩ <;>
      simp [renameRole, h1, h2, h3, h4, h5, h6, Ne.symm]

/-- Witness for C10: with Region and Product both mapped to column `X` of a
two-column input, the `Region` column is lost; with four distinct role
columns, all four canonical columns exist. -/
theorem role_collision_spec_witness :
    col_access (df_columns ["X", "Price"] "X" "X" "Price" "Qty") "Region" = none ∧
    "Region" ∈ df_columns ["R", "P", "Pr", "Q"] "R" "P" "Pr" "Q" :=
  ⟨((role_collision_spec ["X", "Price"] "X" "X" "Price" "Qty").1 rfl
      (by decide) (by decide) (by decide)).2.1,
   ((role_collision_spec ["R", "P", "Pr", "Q"] "R" "P" "Pr" "Q").2 (by decide)
      (by decide) (by decide) (by decide) (by decide) (by decide)
      (by decide) (by decide) (by decide) (by decide)).1⟩

/-- The two-row scenario input: (East, Pen, 2, 10) and (West, Pen, "abc", 5),
no Date column. -/
def scenarioRaw : List RawRow :=
  [⟨some "East", some "Pen", Cell.num 2, Cell.num 10, DateCell.empty⟩,
   ⟨some "West", some "Pen", Cell.text "abc", Cell.num 5, DateCell.empty⟩]

/-- The canonicalized scenario table. -/
def scenarioDf : List Row :=
  canonicalTable false scenarioRaw

unseal Rat.mul Rat.add Rat.sub Rat.inv in
/-- C3 counterexample: on the scenario input with default filters, the
missing-value report is taken over the *filtered* table (line 123), whose
default Price bounds are the observed [2, 2], so the row with the unparsable
Price is already excluded and the report counts 0 missing Price values, not
1 as the claim states. -/
theorem scenario_counterexample :
    scenarioDf.map Row.revenue = [some 20, none] ∧
    total_revenue (filtered_df (default_spec scenarioDf) scenarioDf) = 20 ∧
    missingCount ((filtered_df (default_spec scenarioDf) scenarioDf).map Row.price) = 0 ∧
    missingCount ((filtered_df (default_spec scenarioDf) scenarioDf).map Row.price) ≠ 1 := by
  decide

unseal Rat.mul Rat.add Rat.sub Rat.inv in
/-- C3 (amended): on the scenario input the Revenue column is [20, missing]
and the total-Revenue KPI under default filters is 20, as claimed; the
missing-Price count is 1 over the canonicalized table but 0 over the filtered
table the report is actually computed on, because the default Price range
[2, 2] excludes the row whose Price failed coercion. -/
theorem scenario_spec :
    scenarioDf.map Row.revenue = [some 20, none] ∧
    missingCount (scenarioDf.map Row.price) = 1 ∧
    missingCount ((filtered_df (default_spec scenarioDf) scenarioDf).map Row.price) = 0 ∧
    total_revenue (filtered_df (default_spec scenarioDf) scenarioDf) = 20 ∧
    filtered_df (default_spec scenarioDf) scenarioDf =
      [⟨some "East", some "Pen", some 2, some 10, some 20, none⟩] := by
  decide

end Sales
